import Mathlib

/-!
Shallow embedding of the logical core of `app.py`, the single-file
e-commerce dashboard: the loader/normalizer (`load_data`, lines 8-16)
and the filter-aggregate pipeline (filter mask, lines 35-39; KPI
scalars, lines 42-46; monthly trend, line 58; top products, lines
66-67; revenue by country, line 74; top customers, line 80).

Modelling conventions:
* A dataframe is a `List` of rows kept in source order; boolean-mask
  row selection (`df[mask]`) is `List.filter`.
* Values of the five coerced numeric columns are rationals (`ℚ`); the
  arithmetic of the pipeline (sums, two guarded divisions) is exact, so
  `ℚ` models it faithfully and has no `NaN`.
* `InvoiceDate` is `Option Nat`: a timestamp encoded as the decimal
  digits `yyyymmdd`, so that `Nat` order agrees with chronological
  order and the calendar month is recovered by dividing by 100.  `none`
  stands for pandas `NaT` (an unparseable date); every `<=`/`>=`
  comparison against `NaT` is `False` in pandas, so a `none` date fails
  the range mask, and `groupby` drops `NaT` keys.
* `CustomerID` is `Option String`, `none` standing for a missing id
  (`NaN`), which `groupby` drops (its default `dropna` behaviour).
* `pd.to_numeric` with error coercion followed by `fillna 0` is
  `cellToNum` over an abstract cell type: `num q` is a cell whose value
  coerces to the number `q`, `bad` one that fails numeric coercion
  (becoming `NaN`), `null` a missing value.
* `groupby(ks).agg(...)` over list-valued keys is: the list of distinct
  keys, each paired with the aggregates over the rows carrying that
  key.  `sort_values` descending is an insertion sort on the ranking
  key; `head n` is `List.take n`.
* `groupby(pd.Grouper(freq = M))` bins rows by calendar month using
  month-end bins running from the earliest to the latest invoice date
  present, including intermediate empty months (whose sums are 0),
  exactly as pandas resampling does; `monthRange` builds that bin list
  by iterating the month successor.
-/

namespace Dashboard

/-- Calendar-month code of a `yyyymmdd`-encoded date: its `yyyymm` digits.
This models `dt.to_period("M")` applied to a timestamp. -/
def monthOf (d : Nat) : Nat := d / 100

/-- One cell of one of the five numeric source columns, before coercion:
either a value that numeric coercion turns into the number `q`, or a value
on which coercion fails (pandas would produce `NaN`), or a missing value. -/
inductive RawCell where
  | num (q : ℚ)
  | bad
  | null
deriving DecidableEq

/-- Numeric normalization of one cell, app.py line 14:
`pd.to_numeric(df[col], errors="coerce").fillna(0)`. -/
def cellToNum : RawCell → ℚ
  | RawCell.num q => q
  | RawCell.bad => 0
  | RawCell.null => 0

/-- One row of the source spreadsheet as read by `pd.read_excel` with date
parsing (app.py line 10): the date column already parsed (`none` = `NaT`),
the five numeric columns still raw. -/
structure RawRow where
  invoiceNo : String
  stockCode : String
  description : String
  quantity : RawCell
  unitPrice : RawCell
  revenue : RawCell
  cost : RawCell
  profit : RawCell
  invoiceDate : Option Nat
  customerID : Option String
  country : String
deriving DecidableEq

/-- One normalized row, after `load_data`: numeric columns coerced, plus the
derived `Month` column (app.py line 15), encoded as a `yyyymm` code. -/
structure Row where
  invoiceNo : String
  stockCode : String
  description : String
  quantity : ℚ
  unitPrice : ℚ
  revenue : ℚ
  cost : ℚ
  profit : ℚ
  invoiceDate : Option Nat
  customerID : Option String
  country : String
  month : Option Nat
deriving DecidableEq

/-- Normalization of one row: coerce the five numeric columns, derive
`Month` from `InvoiceDate` (app.py lines 12-15). -/
def loadRow (rr : RawRow) : Row :=
  { invoiceNo := rr.invoiceNo
    stockCode := rr.stockCode
    description := rr.description
    quantity := cellToNum rr.quantity
    unitPrice := cellToNum rr.unitPrice
    revenue := cellToNum rr.revenue
    cost := cellToNum rr.cost
    profit := cellToNum rr.profit
    invoiceDate := rr.invoiceDate
    customerID := rr.customerID
    country := rr.country
    month := rr.invoiceDate.map monthOf }

/-- `load_data` (app.py lines 8-16), restricted to its normalization logic:
the file read itself is the external input, modelled as the raw row list. -/
def load_data (raw : List RawRow) : List Row := raw.map loadRow

/-- The user-chosen filter constraints (app.py lines 28-31): an inclusive
date range and a country multi-selection (order as listed in the widget). -/
structure FilterSpec where
  date_start : Nat
  date_end : Nat
  countries : List String
deriving DecidableEq

/-- The date-range part of the mask, app.py line 36:
`(df["InvoiceDate"] >= start_date) & (df["InvoiceDate"] <= end_date)`.
A `NaT` date compares false on both sides. -/
def dateMask (fs : FilterSpec) (r : Row) : Bool :=
  match r.invoiceDate with
  | some d => decide (fs.date_start ≤ d) && decide (d ≤ fs.date_end)
  | none => false

/-- The full row mask, app.py lines 36-38: the country conjunct
`df["Country"].isin(country_sel)` is added only when the selection is
non-empty (`if country_sel:`). -/
def mask (fs : FilterSpec) (r : Row) : Bool :=
  if fs.countries.isEmpty then dateMask fs r
  else dateMask fs r && fs.countries.contains r.country

/-- The filtered dataframe `df_f = df[mask].copy()` (app.py line 39). -/
def df_f (df : List Row) (fs : FilterSpec) : List Row := df.filter (mask fs)

/-- Sum of a numeric column over a (filtered) dataframe. -/
def sumBy (f : Row → ℚ) (rows : List Row) : ℚ := (rows.map f).sum

/-- KPI `total_revenue = df_f["Revenue"].sum()` (app.py line 42). -/
def total_revenue (rows : List Row) : ℚ := sumBy (fun r => r.revenue) rows

/-- KPI `total_profit = df_f["Profit"].sum()` (app.py line 43). -/
def total_profit (rows : List Row) : ℚ := sumBy (fun r => r.profit) rows

/-- KPI `total_orders = df_f["InvoiceNo"].nunique()` (app.py line 44):
the number of distinct invoice numbers. -/
def total_orders (rows : List Row) : Nat :=
  ((rows.map (fun r => r.invoiceNo)).dedup).length

/-- KPI `avg_order_value` (app.py line 45): guarded by the Python
truthiness test `if total_orders`, i.e. the count being non-zero. -/
def avg_order_value (rows : List Row) : ℚ :=
  if total_orders rows ≠ 0 then total_revenue rows / (total_orders rows : ℚ) else 0

/-- KPI `profit_margin` (app.py line 46): guarded by the Python truthiness
test `if total_revenue`, i.e. the sum being non-zero. -/
def profit_margin (rows : List Row) : ℚ :=
  if total_revenue rows ≠ 0 then total_profit rows / total_revenue rows else 0

section SortValues

variable {α : Type} (key : α → ℚ)

/-- Insert one element into a descending-sorted list, keeping it sorted. -/
def insertDescBy (x : α) : List α → List α
  | [] => [x]
  | y :: ys => if key y < key x then x :: y :: ys else y :: insertDescBy x ys

/-- `sort_values(key, ascending=False)`: produce the rows in descending
order of the ranking key.  (The relative order pandas gives to rows with
equal keys under its default sort kind is unspecified; this model realizes
one concrete order.  No theorem below relies on the tie order.) -/
def sort_values : List α → List α
  | [] => []
  | x :: xs => insertDescBy key x (sort_values xs)

end SortValues

/-- One row of the top-products table (app.py line 66). -/
structure ProdAgg where
  stockCode : String
  description : String
  revenue : ℚ
  profit : ℚ
  quantity : ℚ
deriving DecidableEq

/-- `df_f.groupby(["StockCode","Description"]).agg(Revenue sum, Profit sum,
Quantity sum).reset_index()` (app.py line 66). -/
def prodGroups (rows : List Row) : List ProdAgg :=
  ((rows.map (fun r => (r.stockCode, r.description))).dedup).map (fun k =>
    { stockCode := k.1
      description := k.2
      revenue := sumBy (fun r => r.revenue)
        (rows.filter (fun r => (r.stockCode, r.description) == k))
      profit := sumBy (fun r => r.profit)
        (rows.filter (fun r => (r.stockCode, r.description) == k))
      quantity := sumBy (fun r => r.quantity)
        (rows.filter (fun r => (r.stockCode, r.description) == k)) })

/-- The top-products table: sort descending by revenue, keep `top_n` rows
(app.py lines 66-67). -/
def prod (rows : List Row) (top_n : Nat) : List ProdAgg :=
  (sort_values (fun p => p.revenue) (prodGroups rows)).take top_n

/-- One row of the revenue-by-country table (app.py line 74). -/
structure CountryAgg where
  country : String
  revenue : ℚ
deriving DecidableEq

/-- `df_f.groupby("Country").agg(Revenue sum).reset_index()` (app.py line 74). -/
def countryGroups (rows : List Row) : List CountryAgg :=
  ((rows.map (fun r => r.country)).dedup).map (fun k =>
    { country := k
      revenue := sumBy (fun r => r.revenue) (rows.filter (fun r => r.country == k)) })

/-- The revenue-by-country table: sort descending by revenue, keep a fixed
15 rows (app.py line 74). -/
def country (rows : List Row) : List CountryAgg :=
  (sort_values (fun c => c.revenue) (countryGroups rows)).take 15

/-- One row of the top-customers table (app.py line 80). -/
structure CustAgg where
  customerID : String
  revenue : ℚ
  orders : Nat
deriving DecidableEq

/-- The rows of one customer group: `groupby("CustomerID")` keys on present
(non-null) customer ids only. -/
def custGroupRows (rows : List Row) (k : String) : List Row :=
  rows.filter (fun r => r.customerID == some k)

/-- `df_f.groupby("CustomerID").agg(Revenue sum, Orders nunique InvoiceNo)`
(app.py line 80): rows with a missing `CustomerID` belong to no group,
because pandas `groupby` drops null keys. -/
def custGroups (rows : List Row) : List CustAgg :=
  ((rows.filterMap (fun r => r.customerID)).dedup).map (fun k =>
    { customerID := k
      revenue := sumBy (fun r => r.revenue) (custGroupRows rows k)
      orders := ((custGroupRows rows k).map (fun r => r.invoiceNo)).dedup.length })

/-- The top-customers table: sort descending by revenue, keep `top_n` rows
(app.py line 80). -/
def cust (rows : List Row) (top_n : Nat) : List CustAgg :=
  (sort_values (fun c => c.revenue) (custGroups rows)).take top_n

/-- Month code of a row's `InvoiceDate` (the binning key of the monthly
trend, which groups on `InvoiceDate`, not on the derived `Month` column). -/
def rowMonth (r : Row) : Option Nat := r.invoiceDate.map monthOf

/-- The month codes of the rows whose date parsed (pandas drops `NaT` from
time bins). -/
def datedMonths (rows : List Row) : List Nat := rows.filterMap rowMonth

/-- The calendar month following `m` (both as `yyyymm` codes): what the
next month-end bin of a pandas month resampling is labelled with. -/
def monthSucc (m : Nat) : Nat :=
  if m % 100 < 12 then m + 1 else (m / 100 + 1) * 100 + 1

theorem lt_monthSucc (m : Nat) : m < monthSucc m := by
  unfold monthSucc
  split
  · omega
  · have h1 : m % 100 < 100 := Nat.mod_lt _ (by omega)
    have h2 : 100 * (m / 100) + m % 100 = m := Nat.div_add_mod m 100
    omega

/-- Month codes from `a` up to `b`, stepping by `monthSucc`, with explicit
fuel so that the definition is structurally recursive. -/
def monthRangeAux : Nat → Nat → Nat → List Nat
  | 0, a, _ => [a]
  | fuel + 1, a, b => if b ≤ a then [a] else a :: monthRangeAux fuel (monthSucc a) b

/-- The month-end bins of `groupby(pd.Grouper(key="InvoiceDate", freq="M"))`:
every calendar month from `a` to `b`. -/
def monthRange (a b : Nat) : List Nat := monthRangeAux (b - a) a b

/-- One row of the monthly-trend table: the bin label (month code, what
`strftime("%Y-%m")` prints) and the two sums. -/
structure MonthAgg where
  month : Nat
  revenue : ℚ
  profit : ℚ
deriving DecidableEq

/-- The aggregate of one month bin: sums of `Revenue` and `Profit` over the
rows whose `InvoiceDate` falls in that month (0 for an empty bin). -/
def monthBucket (rows : List Row) (m : Nat) : MonthAgg :=
  { month := m
    revenue := sumBy (fun r => r.revenue) (rows.filter (fun r => rowMonth r == some m))
    profit := sumBy (fun r => r.profit) (rows.filter (fun r => rowMonth r == some m)) }

/-- The monthly trend (app.py lines 58-59): bins from the earliest to the
latest invoice month present (pandas `Grouper` bins include intermediate
empty months), in ascending order, each with its sums.  Empty when no row
has a parsed date. -/
def monthly (rows : List Row) : List MonthAgg :=
  match (datedMonths rows).min?, (datedMonths rows).max? with
  | some lo, some hi => (monthRange lo hi).map (monthBucket rows)
  | _, _ => []

/-- The five KPI scalars as one record. -/
structure Kpis where
  total_revenue : ℚ
  total_profit : ℚ
  total_orders : Nat
  avg_order_value : ℚ
  profit_margin : ℚ
deriving DecidableEq

/-- Everything one script run renders from the filtered dataframe. -/
structure Result where
  kpis : Kpis
  monthlyTrend : List MonthAgg
  topProducts : List ProdAgg
  byCountry : List CountryAgg
  topCustomers : List CustAgg
deriving DecidableEq

/-- One full run of the script body below the widgets (app.py lines 35-87):
filter the loaded table, compute the KPIs and the four result tables.  The
run also yields the loaded table as it stands afterwards, to state that the
pipeline never mutates its source. -/
def runDashboard (df : List Row) (fs : FilterSpec) (top_n : Nat) : Result × List Row :=
  let dff := df_f df fs
  (⟨⟨total_revenue dff, total_profit dff, total_orders dff,
     avg_order_value dff, profit_margin dff⟩,
    monthly dff, prod dff top_n, country dff, cust dff top_n⟩, df)

end Dashboard

namespace Dashboard

/-! ### Claim-side reference predicates (written from the specification) -/

/-- The specification's date condition: the row's `invoice_date` exists and
lies inclusively between `date_start` and `date_end`. -/
def dateWithin (fs : FilterSpec) (r : Row) : Prop :=
  ∃ d, r.invoiceDate = some d ∧ fs.date_start ≤ d ∧ d ≤ fs.date_end

instance (fs : FilterSpec) (r : Row) : Decidable (dateWithin fs r) :=
  match h : r.invoiceDate with
  | some d =>
    if hd : fs.date_start ≤ d ∧ d ≤ fs.date_end then
      isTrue ⟨d, h, hd.1, hd.2⟩
    else
      isFalse (by
        rintro ⟨d', hd', h1, h2⟩
        rw [h] at hd'
        cases hd'
        exact hd ⟨h1, h2⟩)
  | none =>
    isFalse (by
      rintro ⟨d', hd', -, -⟩
      rw [h] at hd'
      cases hd')

/-- The specification's country condition: either no country restriction is
in force (empty selection) or the row's country belongs to the selection. -/
def countryOk (fs : FilterSpec) (r : Row) : Prop :=
  fs.countries = [] ∨ r.country ∈ fs.countries

instance (fs : FilterSpec) (r : Row) : Decidable (countryOk fs r) :=
  inferInstanceAs (Decidable (fs.countries = [] ∨ r.country ∈ fs.countries))

theorem dateMask_iff (fs : FilterSpec) (r : Row) :
    dateMask fs r = true ↔ dateWithin fs r := by
  unfold dateMask dateWithin
  rcases h : r.invoiceDate with _ | d <;> simp

theorem mask_iff (fs : FilterSpec) (r : Row) :
    mask fs r = true ↔ dateWithin fs r ∧ countryOk fs r := by
  unfold mask countryOk
  by_cases hc : fs.countries.isEmpty
  · simp [hc, dateMask_iff, List.isEmpty_iff.mp hc]
  · have hne : fs.countries ≠ [] := fun hnil => hc (List.isEmpty_iff.mpr hnil)
    simp [hc, dateMask_iff, hne, List.contains_iff_exists_mem_beq, beq_iff_eq]

/-- C1: the filtered row set is exactly the rows whose `invoice_date` lies
inclusively in the chosen range and whose country passes the (possibly
empty, hence vacuous) country restriction — in source order, with
multiplicity. -/
theorem filtered_rows_exact (df : List Row) (fs : FilterSpec) :
    df_f df fs = df.filter (fun r => decide (dateWithin fs r ∧ countryOk fs r)) := by
  unfold df_f
  refine List.filter_congr (fun r _ => ?_)
  rw [Bool.eq_iff_iff, mask_iff]
  simp

/-- C2: each KPI scalar equals its reference definition: sums of the
revenue and profit columns, the number of distinct invoice ids (stated via
`Finset` cardinality), and the two ratios with their division-by-zero
guards (`avg_order_value` falls back to 0 unless the order count is
positive, `profit_margin` falls back to 0 unless revenue is non-zero).
All five are total functions into `ℚ`/`ℕ`, so no error or NaN can
propagate. -/
theorem kpis_match_reference (rows : List Row) :
    total_revenue rows = (rows.map (fun r => r.revenue)).sum
    ∧ total_profit rows = (rows.map (fun r => r.profit)).sum
    ∧ total_orders rows = (rows.map (fun r => r.invoiceNo)).toFinset.card
    ∧ avg_order_value rows =
        (if 0 < total_orders rows then total_revenue rows / (total_orders rows : ℚ) else 0)
    ∧ profit_margin rows =
        (if total_revenue rows ≠ 0 then total_profit rows / total_revenue rows else 0) := by
  refine ⟨rfl, rfl, ?_, ?_, rfl⟩
  · rw [List.card_toFinset]
    rfl
  · by_cases h : total_orders rows = 0 <;>
      simp [avg_order_value, h, Nat.pos_iff_ne_zero]

/-- C3: the loader normalizes the five numeric columns value by value;
every cell that coerces to a number keeps that number, and every cell that
fails coercion (`bad`) or is missing (`null`) becomes exactly 0.  The
resulting columns are total `ℚ` values, so no parse failure escapes the
loader and no null survives it. -/
theorem load_data_numeric_normalization (raw : List RawRow) :
    load_data raw = raw.map loadRow
    ∧ (∀ rr : RawRow,
        (loadRow rr).quantity = cellToNum rr.quantity
        ∧ (loadRow rr).unitPrice = cellToNum rr.unitPrice
        ∧ (loadRow rr).revenue = cellToNum rr.revenue
        ∧ (loadRow rr).cost = cellToNum rr.cost
        ∧ (loadRow rr).profit = cellToNum rr.profit)
    ∧ cellToNum RawCell.bad = 0
    ∧ cellToNum RawCell.null = 0 :=
  ⟨rfl, fun _ => ⟨rfl, rfl, rfl, rfl, rfl⟩, rfl, rfl⟩

/-- C9: one full pipeline run leaves the loaded table untouched: the table
the run hands back is the very table it was given, row for row and column
for column, for every filter spec and every `top_n`.  (Every step of the
embedded pipeline reads the filtered copy `df_f` only.) -/
theorem run_preserves_source (df : List Row) (fs : FilterSpec) (top_n : Nat) :
    (runDashboard df fs top_n).2 = df := rfl

end Dashboard

namespace Dashboard

/-! ### Ordering and truncation of the ranked tables -/

theorem mem_insertDescBy {α : Type} (key : α → ℚ) (x a : α) (l : List α) :
    a ∈ insertDescBy key x l ↔ a = x ∨ a ∈ l := by
  induction l with
  | nil => simp [insertDescBy]
  | cons y ys ih =>
    unfold insertDescBy
    split
    · simp [List.mem_cons]
    · simp only [List.mem_cons, ih]
      tauto

theorem pairwise_insertDescBy {α : Type} (key : α → ℚ) (x : α) (l : List α)
    (h : l.Pairwise (fun a b => key b ≤ key a)) :
    (insertDescBy key x l).Pairwise (fun a b => key b ≤ key a) := by
  induction l with
  | nil => simp [insertDescBy]
  | cons y ys ih =>
    rw [List.pairwise_cons] at h
    obtain ⟨hy, hys⟩ := h
    unfold insertDescBy
    split
    · rename_i hlt
      refine List.Pairwise.cons ?_ (List.Pairwise.cons hy hys)
      intro b hb
      rcases List.mem_cons.mp hb with rfl | hb
      · exact le_of_lt hlt
      · exact (hy b hb).trans (le_of_lt hlt)
    · rename_i hnlt
      have hxy : key x ≤ key y := le_of_not_lt hnlt
      refine List.Pairwise.cons ?_ (ih hys)
      intro b hb
      rcases (mem_insertDescBy key x b ys).mp hb with rfl | hb
      · exact hxy
      · exact hy b hb

theorem pairwise_sort_values {α : Type} (key : α → ℚ) (l : List α) :
    (sort_values key l).Pairwise (fun a b => key b ≤ key a) := by
  induction l with
  | nil => exact List.Pairwise.nil
  | cons x xs ih => exact pairwise_insertDescBy key x _ ih

theorem mem_sort_values {α : Type} (key : α → ℚ) (a : α) (l : List α) :
    a ∈ sort_values key l ↔ a ∈ l := by
  induction l with
  | nil => simp [sort_values]
  | cons x xs ih => simp [sort_values, mem_insertDescBy, ih]

/-- C5: the three ranked tables respect their truncation bounds — `top_n`
for products and customers, a fixed 15 for countries — and each is sorted
descending by revenue (`Pairwise` descending, which in particular leaves no
adjacent pair out of order). -/
theorem ranked_tables_bounded_sorted (rows : List Row) (top_n : Nat) :
    (prod rows top_n).length ≤ top_n
    ∧ (prod rows top_n).Pairwise (fun a b => b.revenue ≤ a.revenue)
    ∧ (cust rows top_n).length ≤ top_n
    ∧ (cust rows top_n).Pairwise (fun a b => b.revenue ≤ a.revenue)
    ∧ (country rows).length ≤ 15
    ∧ (country rows).Pairwise (fun a b => b.revenue ≤ a.revenue) := by
  refine ⟨?_, ?_, ?_, ?_, ?_, ?_⟩ <;>
    first
      | exact List.length_take_le _ _
      | exact (pairwise_sort_values _ _).sublist (List.take_sublist _ _)

/-! ### Missing customer ids -/

theorem filterMap_customerID_filter_isSome (rows : List Row) :
    (rows.filter (fun r => r.customerID.isSome)).filterMap (fun r => r.customerID)
      = rows.filterMap (fun r => r.customerID) := by
  induction rows with
  | nil => rfl
  | cons r rs ih =>
    rcases h : r.customerID with _ | c <;>
      simp [List.filter_cons, List.filterMap_cons, h, ih]

theorem custGroupRows_filter_isSome (rows : List Row) :
    custGroupRows (rows.filter (fun r => r.customerID.isSome)) = custGroupRows rows := by
  funext k
  unfold custGroupRows
  rw [List.filter_filter]
  refine List.filter_congr (fun r _ => ?_)
  rcases h : r.customerID with _ | c <;> simp [h]

/-- C10: rows whose `customer_id` is missing play no part whatsoever in the
top-customers table: discarding them from the filtered set beforehand gives
the identical table, for every `top_n` — so they feed no revenue and no
order count into any group, and no group keyed by the absent id exists
(group keys come from present ids only). -/
theorem cust_ignores_absent_customer_ids (rows : List Row) (top_n : Nat) :
    cust rows top_n = cust (rows.filter (fun r => r.customerID.isSome)) top_n := by
  unfold cust custGroups
  rw [filterMap_customerID_filter_isSome, custGroupRows_filter_isSome]

/-! ### Degenerate filter -/

/-- C4: a filter spec that selects zero rows produces the all-zero KPI
record and four empty result tables, with every function total (no error
path exists in the embedding). -/
theorem degenerate_empty_filter (df : List Row) (fs : FilterSpec) (top_n : Nat)
    (h : df_f df fs = []) :
    (runDashboard df fs top_n).1 = ⟨⟨0, 0, 0, 0, 0⟩, [], [], [], []⟩ := by
  simp [runDashboard, h, prod, cust, country, monthly, custGroups, prodGroups,
    countryGroups, total_revenue, total_profit, total_orders, avg_order_value,
    profit_margin, sumBy, datedMonths, sort_values]

end Dashboard

namespace Dashboard

/-! ### The concrete three-row scenario -/

/-- First scenario row: UK, revenue 100, profit 20, invoice A, 2024-01-15. -/
def rawUK1 : RawRow :=
  { invoiceNo := "A", stockCode := "S1", description := "P1",
    quantity := RawCell.num 1, unitPrice := RawCell.num 100,
    revenue := RawCell.num 100, cost := RawCell.num 80, profit := RawCell.num 20,
    invoiceDate := some 20240115, customerID := some "C1", country := "UK" }

/-- Second scenario row: UK, revenue 50, profit -5, invoice A, 2024-01-20. -/
def rawUK2 : RawRow :=
  { invoiceNo := "A", stockCode := "S2", description := "P2",
    quantity := RawCell.num 1, unitPrice := RawCell.num 50,
    revenue := RawCell.num 50, cost := RawCell.num 55, profit := RawCell.num (-5),
    invoiceDate := some 20240120, customerID := some "C1", country := "UK" }

/-- Third scenario row: FR, revenue 200, profit 40, invoice B, 2024-02-01. -/
def rawFR : RawRow :=
  { invoiceNo := "B", stockCode := "S3", description := "P3",
    quantity := RawCell.num 1, unitPrice := RawCell.num 200,
    revenue := RawCell.num 200, cost := RawCell.num 160, profit := RawCell.num 40,
    invoiceDate := some 20240201, customerID := some "C2", country := "FR" }

/-- The three raw rows of the specification's concrete scenario. -/
def scenarioRaw : List RawRow := [rawUK1, rawUK2, rawFR]

/-- The loaded scenario table. -/
def scenarioDf : List Row := load_data scenarioRaw

/-- The scenario filter: the full date range of the table, countries = {UK}. -/
def scenarioFs : FilterSpec :=
  { date_start := 20240115, date_end := 20240201, countries := ["UK"] }

/-- C8: on the three-row scenario filtered to the UK and the full date
range, the KPIs are revenue 150, profit 15, one distinct order, average
order value 150 and margin 1/10 (= 0.10), and the monthly trend is the
single bucket 2024-01 with revenue 150 and profit 15. -/
theorem concrete_scenario_uk :
    (runDashboard scenarioDf scenarioFs 10).1.kpis =
      { total_revenue := 150, total_profit := 15, total_orders := 1,
        avg_order_value := 150, profit_margin := 1/10 }
    ∧ (runDashboard scenarioDf scenarioFs 10).1.monthlyTrend =
      [{ month := 202401, revenue := 150, profit := 15 }] := by
  have hdf : df_f scenarioDf scenarioFs = [loadRow rawUK1, loadRow rawUK2] := by decide
  constructor
  · simp only [runDashboard]
    rw [hdf]
    norm_num [total_revenue, total_profit, total_orders, avg_order_value,
      profit_margin, sumBy, loadRow, cellToNum, rawUK1, rawUK2, Kpis.mk.injEq,
      List.dedup]
  · simp only [runDashboard]
    rw [hdf]
    norm_num [monthly, datedMonths, rowMonth, monthOf, loadRow, cellToNum,
      rawUK1, rawUK2, List.min?, List.max?, monthRange, monthRangeAux,
      monthBucket, sumBy, List.filter, MonthAgg.mk.injEq, List.filterMap_cons,
      List.foldl, Option.map, beq_iff_eq, min_self, max_self]

/-- Closed instantiation of C4: filtering the scenario table to an empty
date window selects no row, and the pipeline yields all-zero KPIs and four
empty tables. -/
theorem degenerate_empty_filter_witness :
    (runDashboard scenarioDf ⟨1, 2, []⟩ 5).1 = ⟨⟨0, 0, 0, 0, 0⟩, [], [], [], []⟩ :=
  degenerate_empty_filter scenarioDf ⟨1, 2, []⟩ 5 (by decide)

end Dashboard

namespace Dashboard

/-! ### Monthly binning: the claim-side definitions and their comparison -/

/-- Whether `m` is a well-formed `yyyymm` month code (month digits 1..12). -/
def validMonth (m : Nat) : Bool := decide (1 ≤ m % 100) && decide (m % 100 ≤ 12)

/-- Ascending insertion of a month code into a sorted list. -/
def insertAsc (x : Nat) : List Nat → List Nat
  | [] => [x]
  | y :: ys => if x < y then x :: y :: ys else y :: insertAsc x ys

/-- Ascending insertion sort of month codes. -/
def sortAsc : List Nat → List Nat
  | [] => []
  | x :: xs => insertAsc x (sortAsc xs)

/-- The monthly trend as the specification words it: one bucket per
distinct calendar month actually present among the filtered rows, sorted
ascending, each with its sums — no bucket for a month with no rows. -/
def monthlyByRowGroups (rows : List Row) : List MonthAgg :=
  (sortAsc (datedMonths rows).dedup).map (monthBucket rows)

/-- Every well-formed calendar month `m` with `a ≤ m ≤ b`, ascending. -/
def monthsBetween (a b : Nat) : List Nat :=
  ((List.range (b + 1 - a)).map (fun k => a + k)).filter validMonth

/-- The amended reference for the monthly trend: one bucket for every
well-formed calendar month between the earliest and the latest invoice
month of the filtered rows, inclusive — months with no rows included, with
zero sums — in ascending order. -/
def monthlySpecFill (rows : List Row) : List MonthAgg :=
  match (datedMonths rows).min?, (datedMonths rows).max? with
  | some lo, some hi => (monthsBetween lo hi).map (monthBucket rows)
  | _, _ => []

theorem validMonth_monthSucc {m : Nat} (h : validMonth m = true) :
    validMonth (monthSucc m) = true := by
  unfold validMonth at h ⊢
  unfold monthSucc
  simp only [Bool.and_eq_true, decide_eq_true_eq] at h ⊢
  split <;> omega

theorem monthSucc_le_of_valid {a m : Nat} (ha : validMonth a = true)
    (hm : validMonth m = true) (h : a < m) : monthSucc a ≤ m := by
  unfold validMonth at ha hm
  unfold monthSucc
  simp only [Bool.and_eq_true, decide_eq_true_eq] at ha hm
  split <;> omega

theorem le_of_mem_monthRangeAux :
    ∀ (fuel a b m : Nat), m ∈ monthRangeAux fuel a b → a ≤ m := by
  intro fuel
  induction fuel with
  | zero =>
    intro a b m hm
    simp [monthRangeAux] at hm
    omega
  | succ n ih =>
    intro a b m hm
    unfold monthRangeAux at hm
    split at hm
    · simp at hm
      omega
    · rcases List.mem_cons.mp hm with rfl | hm
      · exact Nat.le_refl m
      · exact Nat.le_trans (Nat.le_of_lt (lt_monthSucc a)) (ih _ _ _ hm)

theorem pairwise_monthRangeAux :
    ∀ (fuel a b : Nat), (monthRangeAux fuel a b).Pairwise (fun x y => x < y) := by
  intro fuel
  induction fuel with
  | zero => intro a b; simp [monthRangeAux]
  | succ n ih =>
    intro a b
    unfold monthRangeAux
    split
    · simp
    · refine List.Pairwise.cons ?_ (ih _ _)
      intro m hm
      exact Nat.lt_of_lt_of_le (lt_monthSucc a) (le_of_mem_monthRangeAux _ _ _ _ hm)

theorem mem_monthRangeAux :
    ∀ (fuel a b m : Nat), b - a ≤ fuel → validMonth a = true → validMonth b = true →
      a ≤ b → (m ∈ monthRangeAux fuel a b ↔ validMonth m = true ∧ a ≤ m ∧ m ≤ b) := by
  intro fuel
  induction fuel with
  | zero =>
    intro a b m h1 ha hb hab
    have hba : a = b := by omega
    subst hba
    simp only [monthRangeAux, List.mem_singleton]
    constructor
    · rintro rfl
      exact ⟨ha, Nat.le_refl _, Nat.le_refl _⟩
    · rintro ⟨-, hm1, hm2⟩
      omega
  | succ n ih =>
    intro a b m h1 ha hb hab
    unfold monthRangeAux
    split
    · rename_i hba
      have : a = b := Nat.le_antisymm hab hba
      subst this
      simp only [List.mem_singleton]
      constructor
      · rintro rfl
        exact ⟨ha, Nat.le_refl _, Nat.le_refl _⟩
      · rintro ⟨-, hm1, hm2⟩
        omega
    · rename_i hba
      have hlt : a < b := by omega
      have hsucc_le : monthSucc a ≤ b := monthSucc_le_of_valid ha hb hlt
      have hfuel : b - monthSucc a ≤ n := by
        have := lt_monthSucc a
        omega
      rw [List.mem_cons, ih (monthSucc a) b m hfuel (validMonth_monthSucc ha) hb hsucc_le]
      constructor
      · rintro (rfl | ⟨hvm, hm1, hm2⟩)
        · exact ⟨ha, Nat.le_refl _, Nat.le_of_lt hlt⟩
        · exact ⟨hvm, Nat.le_trans (Nat.le_of_lt (lt_monthSucc a)) hm1, hm2⟩
      · rintro ⟨hvm, hm1, hm2⟩
        rcases Nat.eq_or_lt_of_le hm1 with rfl | hm1'
        · exact Or.inl rfl
        · exact Or.inr ⟨hvm, monthSucc_le_of_valid ha hvm hm1', hm2⟩

theorem mem_monthsBetween {a b m : Nat} :
    m ∈ monthsBetween a b ↔ validMonth m = true ∧ a ≤ m ∧ m ≤ b := by
  unfold monthsBetween
  simp only [List.mem_filter, List.mem_map, List.mem_range]
  constructor
  · rintro ⟨⟨k, hk, rfl⟩, hv⟩
    exact ⟨hv, by omega, by omega⟩
  · rintro ⟨hv, h1, h2⟩
    exact ⟨⟨m - a, by omega, by omega⟩, hv⟩

theorem pairwise_monthsBetween (a b : Nat) :
    (monthsBetween a b).Pairwise (fun x y => x < y) := by
  unfold monthsBetween
  refine List.Pairwise.filter _ ?_
  exact List.Pairwise.map _ (fun x y h => by omega) (List.pairwise_lt_range _)

theorem nat_min_eq_or (a b : Nat) : min a b = a ∨ min a b = b := by
  rw [Nat.min_def]
  split <;> simp

theorem nat_max_eq_or (a b : Nat) : max a b = a ∨ max a b = b := by
  rw [Nat.max_def]
  split <;> simp

theorem monthRange_eq_monthsBetween {a b : Nat} (ha : validMonth a = true)
    (hb : validMonth b = true) (hab : a ≤ b) :
    monthRange a b = monthsBetween a b := by
  haveI : IsAntisymm Nat (fun x y => x < y) :=
    ⟨fun x y h h' => absurd h' (Nat.lt_asymm h)⟩
  unfold monthRange
  have h1 := pairwise_monthRangeAux (b - a) a b
  have h2 := pairwise_monthsBetween a b
  refine List.eq_of_perm_of_sorted ?_ h1 h2
  refine List.perm_of_nodup_nodup_toFinset_eq
    (h1.imp fun h => Nat.ne_of_lt h) (h2.imp fun h => Nat.ne_of_lt h) ?_
  refine List.toFinset.ext fun m => ?_
  rw [mem_monthRangeAux (b - a) a b m (Nat.le_refl _) ha hb hab, mem_monthsBetween]

end Dashboard

namespace Dashboard

/-- A filtered row in January 2024 (used to compare the two monthly
definitions on a set with a month gap). -/
def rowJan : Row :=
  { invoiceNo := "I1", stockCode := "S1", description := "P1",
    quantity := 1, unitPrice := 1, revenue := 1, cost := 0, profit := 1,
    invoiceDate := some 20240110, customerID := some "C1", country := "UK",
    month := some 202401 }

/-- A filtered row in March 2024 (two months after `rowJan`). -/
def rowMar : Row :=
  { invoiceNo := "I2", stockCode := "S2", description := "P2",
    quantity := 1, unitPrice := 2, revenue := 2, cost := 0, profit := 2,
    invoiceDate := some 20240310, customerID := some "C2", country := "UK",
    month := some 202403 }

/-- A filtered row set with a month gap: January and March, no February. -/
def gapRows : List Row := [rowJan, rowMar]

/-- C7 counterexample: on a filtered set with rows in 2024-01 and 2024-03
only, the pipeline's monthly trend is not the row-grouping the claim
describes — the month-end binning of `pd.Grouper` inserts a 2024-02 bucket
with zero sums, so the code's trend has three buckets where grouping the
rows by their month yields two. -/
theorem monthly_gap_counterexample :
    monthly gapRows ≠ monthlyByRowGroups gapRows := by
  intro h
  have hlen := congrArg List.length h
  simp [monthly, monthlyByRowGroups, gapRows, rowJan, rowMar, datedMonths,
    rowMonth, monthOf, List.min?, List.max?, monthRange, monthRangeAux,
    monthSucc, sortAsc, insertAsc, List.dedup, List.filterMap_cons,
    List.foldl, Option.map] at hlen

/-- C7 (amended): whenever every parsed invoice date carries a well-formed
month code, the monthly trend equals the amended reference: one bucket for
every calendar month from the earliest to the latest invoice month of the
filtered rows inclusive — including zero-sum buckets for months with no
rows — in ascending order, each bucket summing the revenue and profit of
the rows whose `invoice_date` falls in it. -/
theorem monthly_fills_month_range (rows : List Row)
    (hv : ∀ m ∈ datedMonths rows, validMonth m = true) :
    monthly rows = monthlySpecFill rows := by
  unfold monthly monthlySpecFill
  cases hmin : (datedMonths rows).min? with
  | none =>
    cases hmax : (datedMonths rows).max? with
    | none => rfl
    | some hi => rfl
  | some lo =>
    cases hmax : (datedMonths rows).max? with
    | none => rfl
    | some hi =>
      have hlo_mem : lo ∈ datedMonths rows := List.min?_mem nat_min_eq_or hmin
      have hhi_mem : hi ∈ datedMonths rows := List.max?_mem nat_max_eq_or hmax
      have hlo_le : lo ≤ hi :=
        (List.le_min?_iff (fun _ _ _ => Nat.le_min) hmin).mp (Nat.le_refl lo) hi hhi_mem
      show (monthRange lo hi).map (monthBucket rows)
        = (monthsBetween lo hi).map (monthBucket rows)
      rw [monthRange_eq_monthsBetween (hv lo hlo_mem) (hv hi hhi_mem) hlo_le]

/-- Closed instantiation of the amended C7 on the January/March gap set:
its dates are well-formed, so the refinement theorem applies. -/
theorem monthly_fills_month_range_witness :
    monthly gapRows = monthlySpecFill gapRows :=
  monthly_fills_month_range gapRows (by decide)

end Dashboard
